import Mathlib

/-
Verification of the messages-wrapped export pipeline (src/lib.rs).

The Rust module exports a pipeline: gather_imessage_data reads the local
message and contact stores, the statistics are serialized, encrypt_data
compresses (Brotli) and encrypts (AES-256-GCM, fixed all-zero 96-bit nonce,
fresh random 256-bit key) the bytes, send_stats uploads the ciphertext and
builds the share URL, and fetch_stats orchestrates everything into a JSON
result envelope.

The embedding below is a shallow model.  External effects (environment
variables, database opens, the HTTP exchange, the random number generator)
are supplied by a World record; the functions of the module are translated
as pure Lean functions over that record.  The external Brotli codec and the
AES-GCM cipher are third-party libraries, modelled here by executable
stand-ins that keep their documented interface contracts: the codec is
lossless, and the cipher is a length-preserving keystream cipher that
appends a 16-byte (128-bit) authentication tag checked on decryption.
Bytes are Nat values below 256; wall-clock durations are not modelled.
-/

/-- Observable side effects of the pipeline, recorded as a trace: opening,
reading or closing the extra chat.db connection of send_stats, writing a
line to standard output, and issuing the HTTP upload. -/
inductive Effect
  | openChatDb (path : String)
  | readChatDb
  | closeChatDb
  | stdout (line : String)
  | httpPost (url : String) (body : List Nat)
deriving DecidableEq

/-- Classification of the variants of the error enum AnalyzerError in
src/lib.rs (Table, Io, Sql, Image).  Each variant carries the rendered
message of the underlying error. -/
inductive AnalyzerError
  | table (msg : String)
  | io (msg : String)
  | sql (msg : String)
  | image (msg : String)
deriving DecidableEq

/-- The error kind (enum variant) of an AnalyzerError, without its message. -/
inductive ErrKind
  | table
  | io
  | sql
  | image
deriving DecidableEq

/-- Kind of an AnalyzerError value: which enum variant it is. -/
def AnalyzerError.kind : AnalyzerError → ErrKind
  | .table _ => .table
  | .io _ => .io
  | .sql _ => .sql
  | .image _ => .image

/-- Rendered Display message of an AnalyzerError (thiserror: the Table
variant prefixes its text, the transparent variants forward it). -/
def AnalyzerError.message : AnalyzerError → String
  | .table m => "imessage table error " ++ m
  | .io m => m
  | .sql m => m
  | .image m => m

/-- A Rust panic.  The only panic site the claims touch is the unwrap of
the HOME environment variable, which panics when the variable is absent. -/
inductive Panic
  | unwrapNone
deriving DecidableEq

/-- One message row: the rowid stands for the opaque payload of the record
and date is the timestamp column used as the sort key. -/
structure Message where
  rowid : Nat
  date : Int
deriving DecidableEq

/-- Outcome of the HTTP POST issued by send_stats.  A response carries the
numeric status, the body text read by the error branch, and the result of
JSON-decoding the body: none when the body is not valid JSON, otherwise
the optional string value of the id field. -/
inductive HttpOutcome
  | timeout
  | connectFailed
  | otherError (msg : String)
  | response (status : Nat) (bodyText : String) (json : Option (Option String))
deriving DecidableEq

/-- The external world of one pipeline run: the HOME environment variable,
the outcomes of the database opens performed by gather_imessage_data, the
rows returned by the message query, the outcome of the extra chat.db open
performed by send_stats, the HTTP outcome, and the random byte stream of
the operating system (read at successive indices). -/
structure World where
  home : Option String
  gatherChatOpen : Except AnalyzerError Unit
  queryAllMessages : List Message
  addressBookOpen : Except AnalyzerError Unit
  handlesLoad : Except AnalyzerError Unit
  sendChatOpen : Except AnalyzerError Unit
  http : HttpOutcome
  rng : Nat → Nat

/-- Modelled from the external Brotli codec used by encrypt_data: only its
lossless contract matters to the pipeline, so the model keeps the bytes
unchanged. -/
def brotliCompress (data : List Nat) : List Nat := data

/-- Inverse of the Brotli codec model. -/
def brotliDecompress (data : List Nat) : List Nat := data

/-- Modelled from the external AES-GCM implementation: one keystream byte,
a deterministic executable function of the key, the nonce and the byte
index. -/
def keystreamByte (key nonce : List Nat) (i : Nat) : Nat :=
  (key.foldl (fun a b => a * 131 + b) 7 + nonce.foldl (fun a b => a * 131 + b) 3 + i * 97) % 256

/-- The first n keystream bytes for a key and nonce. -/
def keystream (key nonce : List Nat) (n : Nat) : List Nat :=
  (List.range n).map (keystreamByte key nonce)

/-- Pointwise xor of two byte lists (truncating to the shorter one). -/
def xorBytes (a b : List Nat) : List Nat :=
  List.zipWith (fun x y => x ^^^ y) a b

/-- Modelled from the external AES-GCM implementation: the 16-byte (128-bit)
authentication tag over the encrypted body, a deterministic executable
function of key, nonce and body. -/
def authTag (key nonce body : List Nat) : List Nat :=
  (List.range 16).map
    (fun i => (body.foldl (fun a b => a * 131 + b) 17 + keystreamByte key nonce (1000 + i)) % 256)

/-- Modelled from the external AES-GCM implementation: authenticated
encryption xors the plaintext with the keystream and appends the 128-bit
authentication tag, so the ciphertext embeds the tag. -/
def aesGcmEncrypt (key nonce pt : List Nat) : List Nat :=
  let body := xorBytes pt (keystream key nonce pt.length)
  body ++ authTag key nonce body

/-- Modelled from the external AES-GCM implementation: authenticated
decryption splits off the 16-byte tag, rejects the ciphertext when the tag
does not verify, and otherwise xors the body with the keystream. -/
def aesGcmDecrypt (key nonce ct : List Nat) : Option (List Nat) :=
  if ct.length < 16 then none
  else
    let body := ct.take (ct.length - 16)
    let tag := ct.drop (ct.length - 16)
    if tag = authTag key nonce body then some (xorBytes body (keystream key nonce body.length))
    else none

/-- The fixed all-zero 96-bit (12-byte) nonce of encrypt_data
(src/lib.rs line 178: Nonce::from_slice of twelve zero bytes). -/
def zeroNonce : List Nat := List.replicate 12 0

/-- Reading n bytes from the random stream starting at index pos, the model
of rng.fill on a buffer of length n. -/
def rngBytes (rng : Nat → Nat) (pos n : Nat) : List Nat :=
  (List.range n).map (fun i => rng (pos + i) % 256)

/-- The stream indices consumed by one 32-byte key draw starting at pos. -/
def keyDrawIndices (pos : Nat) : List Nat :=
  (List.range 32).map (fun i => pos + i)

/-- Result of encrypt_data: the returned key and ciphertext, the position
of the random stream after the call (the next call draws from there, so
key material is never reused across calls), and the stdout log lines the
function prints. -/
structure EncryptOut where
  key : List Nat
  ciphertext : List Nat
  nextPos : Nat
  log : List Effect
deriving DecidableEq

/-- Shallow embedding of encrypt_data (src/lib.rs lines 146-196): Brotli
compress the input, print the sizes, draw a fresh random 256-bit (32-byte)
key, encrypt the compressed bytes with AES-256-GCM under the fixed all-zero
nonce, print the key length, the encrypted size and the key bytes, print a
prefix of the ciphertext, and return the key with the ciphertext.  The Rust
failure paths (cipher initialization with a wrongly sized key, writes into
an in-memory buffer) are unreachable for the 32-byte generated key, so the
model is total. -/
def encrypt_data (rng : Nat → Nat) (pos : Nat) (data : List Nat) : EncryptOut :=
  let compressed := brotliCompress data
  let key_bytes := rngBytes rng pos 32
  let encrypted := aesGcmEncrypt key_bytes zeroNonce compressed
  { key := key_bytes
    ciphertext := encrypted
    nextPos := pos + 32
    log :=
      [ Effect.stdout ("Rust encryption - Original size: " ++ toString data.length ++
          ", Compressed size: " ++ toString compressed.length),
        Effect.stdout ("Rust encryption - Key length: " ++ toString key_bytes.length ++
          ", Encrypted size: " ++ toString encrypted.length ++
          ", Key bytes: " ++ toString key_bytes),
        Effect.stdout ("Rust encryption - First 32 bytes of encrypted data: " ++
          toString (encrypted.take 32)) ] }

/-- The Bool comparison passed to the stable sort: non-decreasing by the
date (timestamp) field, the model of sort_by_key on m.date. -/
def dateLE (a b : Message) : Bool := decide (a.date ≤ b.date)

/-- Shallow embedding of gather_imessage_data (src/lib.rs lines 102-144):
open the chat database (failure aborts the gather), query all message rows
and sort them by timestamp with a stable sort, open the address-book
sources and build the contacts index (failure aborts), build the handles
index (failure aborts), close the connections, and return the data.  The
contacts and handles indices are opaque to the claims and carried as Unit;
the timing record is not modelled (wall-clock time). -/
def gather_imessage_data (w : World) : Except AnalyzerError (List Message) :=
  match w.gatherChatOpen with
  | .error e => .error e
  | .ok _ =>
    let messages := w.queryAllMessages.mergeSort dateLE
    match w.addressBookOpen with
    | .error e => .error e
    | .ok _ =>
      match w.handlesLoad with
      | .error e => .error e
      | .ok _ => .ok messages

/-- The URL-safe base64 alphabet (RFC 4648, characters 62 and 63 are the
minus sign and the underscore), as used by the URL_SAFE engine. -/
def base64UrlAlphabet : List Char :=
  ("ABCDEFGHIJKLMNOPQRSTUVWXYZabcdefghijklmnopqrstuvwxyz0123456789-_").data

/-- The base64 character for a 6-bit value. -/
def b64Char (n : Nat) : Char := base64UrlAlphabet.getD n 'A'

/-- URL-safe base64 encoding with padding of a byte list, the model of the
URL_SAFE base64 engine applied to the raw key bytes. -/
def encodeBase64Url : List Nat → String
  | [] => ""
  | [b1] =>
    String.mk [b64Char (b1 / 4), b64Char (b1 % 4 * 16), '=', '=']
  | [b1, b2] =>
    String.mk [b64Char (b1 / 4), b64Char (b1 % 4 * 16 + b2 / 16), b64Char (b2 % 16 * 4), '=']
  | b1 :: b2 :: b3 :: rest =>
    String.mk [b64Char (b1 / 4), b64Char (b1 % 4 * 16 + b2 / 16),
      b64Char (b2 % 16 * 4 + b3 / 64), b64Char (b3 % 64)] ++ encodeBase64Url rest

/-- The default base URL used when the caller supplies none. -/
def defaultBaseUrl : String := "https://messageswrapped.com"

/-- The error message built by send_stats when the HTTP client reports a
timeout. -/
def timeoutMsg (uploadUrl : String) : String :=
  "Request timed out while uploading to " ++ uploadUrl

/-- The error message built by send_stats when the HTTP client reports a
connection failure. -/
def connectFailedMsg (uploadUrl : String) : String :=
  "Failed to connect to " ++ uploadUrl ++ ". Please check your internet connection"

/-- The error message built by send_stats for any other transport error. -/
def otherSendErrMsg (e uploadUrl : String) : String :=
  "Upload failed: " ++ e ++ " (URL: " ++ uploadUrl ++ ")"

/-- Modelled from the external http library: the canonical reason phrase of
a status code (the codes exercised by the claims, none for unknown codes). -/
def canonicalReason (code : Nat) : Option String :=
  if code = 200 then some ("OK")
  else if code = 201 then some ("Created")
  else if code = 400 then some ("Bad Request")
  else if code = 404 then some ("Not Found")
  else if code = 500 then some ("Internal Server Error")
  else none

/-- Modelled from the external http library: the Display rendering of a
status code is the number, a space, and the canonical reason phrase. -/
def statusDisplay (code : Nat) : String :=
  toString code ++ " " ++ (canonicalReason code).getD ("<unknown status code>")

/-- The error message built by send_stats for a non-2xx HTTP response
(src/lib.rs lines 270-283): the status Display, the canonical reason, and
the response body, replaced by a placeholder when the body is empty. -/
def httpStatusErrMsg (status : Nat) (bodyText : String) : String :=
  "Upload failed with status " ++ statusDisplay status ++ ": " ++
    (canonicalReason status).getD ("Unknown error") ++ ". Server response: " ++
    (if bodyText = "" then "No error details provided" else bodyText)

/-- Modelled from the external http library: whether a status code counts
as a success (2xx). -/
def isSuccessStatus (status : Nat) : Bool := decide (200 ≤ status ∧ status ≤ 299)

/-- The successful return value of send_stats: the share URL and the
URL-safe base64 rendering of the key (the two Duration components of the
Rust tuple are wall-clock times and are not modelled). -/
structure SendOk where
  shareUrl : String
  keyBase64 : String
deriving DecidableEq

deriving instance DecidableEq for Except

/-- Result of the send_stats model: the Rust Result value together with the
trace of external effects the call performed, in order. -/
structure SendOut where
  result : Except AnalyzerError SendOk
  trace : List Effect
deriving DecidableEq

/-- Shallow embedding of send_stats (src/lib.rs lines 198-303): resolve the
base and upload URLs, unwrap HOME (a panic when absent) and open a fresh
chat.db connection at HOME/Library/Messages/chat.db (its query uses are
commented out in the source, so the connection is never read and never
explicitly closed); on open failure return the error before any packaging
or network step.  Then compress and encrypt the serialized stats, print the
size lines, POST the ciphertext to the upload URL, classify transport
failures (timeout, connection failure, other) into distinct messages,
turn a non-2xx response into an error carrying status and body, decode the
JSON body, and build the share URL from the base URL, the id field
(defaulting to the empty string when absent) and the URL-safe base64 key. -/
def send_stats (w : World) (statsBytes : List Nat) (api_url : Option String) :
    Except Panic SendOut :=
  let base_url := api_url.getD defaultBaseUrl
  let upload_url := base_url ++ "/api/upload"
  match w.home with
  | none => .error Panic.unwrapNone
  | some home =>
    let db_path := home ++ "/Library/Messages/chat.db"
    match w.sendChatOpen with
    | .error e => .ok { result := .error e, trace := [Effect.openChatDb db_path] }
    | .ok _ =>
      let enc := encrypt_data w.rng 0 statsBytes
      let preTrace := Effect.openChatDb db_path :: enc.log ++
        [ Effect.stdout ("Original size: " ++ toString statsBytes.length ++
            ", Compressed + Encrypted size: " ++ toString enc.ciphertext.length),
          Effect.stdout ("Encrypted data size: " ++ toString enc.ciphertext.length),
          Effect.httpPost upload_url enc.ciphertext ]
      match w.http with
      | .timeout =>
        .ok { result := .error (.io (timeoutMsg upload_url)), trace := preTrace }
      | .connectFailed =>
        .ok { result := .error (.io (connectFailedMsg upload_url)), trace := preTrace }
      | .otherError m =>
        .ok { result := .error (.io (otherSendErrMsg m upload_url)), trace := preTrace }
      | .response status bodyText json =>
        if isSuccessStatus status then
          match json with
          | none =>
            .ok { result := .error (.io ("error decoding response body")), trace := preTrace }
          | some idOpt =>
            let key_base64 := encodeBase64Url enc.key
            let share_url := base_url ++ "/s/" ++ idOpt.getD ("") ++ "#" ++ key_base64
            .ok { result := .ok { shareUrl := share_url, keyBase64 := key_base64 },
                  trace := preTrace }
        else
          .ok { result := .error (.io (httpStatusErrMsg status bodyText)), trace := preTrace }

/-- Modelled from the spec: the StatsProducer (module stats, not under
src/) consumes the gathered messages and returns an opaque aggregate that
is deterministically serializable to binary (prost encode_to_vec).  The
model is an opaque deterministic byte encoding of the messages. -/
def get_all_yearly_stats_encoded (msgs : List Message) : List Nat :=
  msgs.map (fun m => (m.rowid + m.date.natAbs) % 256)

/-- The host-facing result envelope of fetch_stats: success carries the
share URL and the encryption key (the timing text is diagnostic wall-clock
data and is not modelled); failure carries the message and the coarse
errorType tag.  The success flag of the JSON object corresponds to the
constructor. -/
inductive Envelope
  | success (shareUrl encryptionKey : String)
  | failure (message errorType : String)
deriving DecidableEq

/-- Shallow embedding of fetch_stats (src/lib.rs lines 305-457): initialize
the storage runtime under a scope guard, unwrap HOME (a panic when absent,
before any pipeline phase runs), run gather_imessage_data (on failure,
build the failure envelope tagged analysis_failed), produce and serialize
the stats, run send_stats (on failure, build the failure envelope tagged
upload_failed), and on success build the success envelope with the share
URL and the key. -/
def fetch_stats (w : World) (api_url : String) : Except Panic Envelope :=
  match w.home with
  | none => .error Panic.unwrapNone
  | some _ =>
    match gather_imessage_data w with
    | .error err =>
      .ok (.failure ("Failed to analyze messages: " ++ err.message) ("analysis_failed"))
    | .ok messages =>
      let statsBytes := get_all_yearly_stats_encoded messages
      match send_stats w statsBytes (some api_url) with
      | .error p => .error p
      | .ok out =>
        match out.result with
        | .error e =>
          .ok (.failure ("Failed to generate your Messages Wrapped: " ++ e.message)
            ("upload_failed"))
        | .ok s => .ok (.success s.shareUrl s.keyBase64)

/-- The keystream has the requested length. -/
theorem keystream_length (key nonce : List Nat) (n : Nat) :
    (keystream key nonce n).length = n := by
  simp [keystream]

/-- Xor with the same byte list twice is the identity when the lengths
match. -/
theorem xorBytes_xorBytes (pt : List Nat) :
    ∀ ks : List Nat, ks.length = pt.length → xorBytes (xorBytes pt ks) ks = pt := by
  induction pt with
  | nil => intro ks _; simp [xorBytes]
  | cons p pt ih =>
    intro ks h
    cases ks with
    | nil => simp at h
    | cons k ks =>
      simp only [List.length_cons, Nat.succ.injEq] at h
      simp only [xorBytes, List.zipWith_cons_cons, List.cons.injEq]
      exact ⟨Nat.xor_cancel_right k p, ih ks h⟩

/-- The ciphertext of the cipher model is the plaintext length plus the
16-byte tag. -/
theorem aesGcmEncrypt_length (key nonce pt : List Nat) :
    (aesGcmEncrypt key nonce pt).length = pt.length + 16 := by
  simp [aesGcmEncrypt, xorBytes, authTag, keystream]

/-- Decryption inverts encryption of the cipher model under the same key
and nonce. -/
theorem aesGcmDecrypt_aesGcmEncrypt (key nonce pt : List Nat) :
    aesGcmDecrypt key nonce (aesGcmEncrypt key nonce pt) = some pt := by
  have hks : (keystream key nonce pt.length).length = pt.length := keystream_length key nonce _
  have hb : (xorBytes pt (keystream key nonce pt.length)).length = pt.length := by
    simp [xorBytes, hks]
  have htag : ∀ body : List Nat, (authTag key nonce body).length = 16 := by
    intro body; simp [authTag]
  rw [aesGcmEncrypt, aesGcmDecrypt]
  simp only []
  have hlen : (xorBytes pt (keystream key nonce pt.length) ++
      authTag key nonce (xorBytes pt (keystream key nonce pt.length))).length =
      pt.length + 16 := by
    rw [List.length_append, hb, htag]
  rw [if_neg (by rw [hlen]; omega)]
  have hsub : (xorBytes pt (keystream key nonce pt.length) ++
      authTag key nonce (xorBytes pt (keystream key nonce pt.length))).length - 16 =
      (xorBytes pt (keystream key nonce pt.length)).length := by
    rw [hlen, hb]; omega
  rw [hsub, List.take_left, List.drop_left, if_pos rfl, hb]
  exact congrArg some (xorBytes_xorBytes pt _ hks)

/-- The sort comparison on the date field is transitive. -/
theorem dateLE_trans (a b c : Message) : dateLE a b → dateLE b c → dateLE a c := by
  simp only [dateLE, decide_eq_true_eq]
  omega

/-- The sort comparison on the date field is total. -/
theorem dateLE_total (a b : Message) : dateLE a b || dateLE b a := by
  simp only [dateLE, Bool.or_eq_true, decide_eq_true_eq]
  omega

/-- Stability of the stable sort on the date key, stated through filters:
the rows holding any particular timestamp appear in the sorted list exactly
in their original order. -/
theorem mergeSort_filter_date (l : List Message) (t : Int) :
    (l.mergeSort dateLE).filter (fun m => decide (m.date = t)) =
      l.filter (fun m => decide (m.date = t)) := by
  have hmem : ∀ a ∈ l.filter (fun m => decide (m.date = t)), a.date = t := by
    intro a ha
    have := List.of_mem_filter ha
    simpa using this
  have hpw : (l.filter (fun m => decide (m.date = t))).Pairwise
      (fun a b => dateLE a b = true) := by
    apply List.pairwise_of_forall_mem_list
    intro a ha b hb
    simp only [dateLE, decide_eq_true_eq]
    rw [hmem a ha, hmem b hb]
  have hsub : List.Sublist (l.filter (fun m => decide (m.date = t))) (l.mergeSort dateLE) :=
    List.sublist_mergeSort dateLE_trans dateLE_total hpw (List.filter_sublist l)
  have hsub2 : List.Sublist (l.filter (fun m => decide (m.date = t)))
      ((l.mergeSort dateLE).filter (fun m => decide (m.date = t))) := by
    have heq : (l.filter (fun m => decide (m.date = t))).filter
        (fun m => decide (m.date = t)) = l.filter (fun m => decide (m.date = t)) := by
      apply List.filter_eq_self.mpr
      intro a ha
      simpa using hmem a ha
    have hstep := List.Sublist.filter (fun m => decide (m.date = t)) hsub
    rw [heq] at hstep
    exact hstep
  have hperm : List.Perm ((l.mergeSort dateLE).filter (fun m => decide (m.date = t)))
      (l.filter (fun m => decide (m.date = t))) :=
    List.Perm.filter _ (List.mergeSort_perm l dateLE)
  exact (List.Sublist.eq_of_length hsub2 hperm.length_eq.symm).symm

/-- Substring containment, stated on the underlying character lists. -/
def strContains (s sub : String) : Prop :=
  ∃ l r : List Char, s.data = l ++ sub.data ++ r

/-- The Rust Result component of a send_stats run, or none when the call
panicked on the HOME unwrap. -/
def sendResult (w : World) (sb : List Nat) (api : Option String) :
    Option (Except AnalyzerError SendOk) :=
  match send_stats w sb api with
  | .error _ => none
  | .ok out => some out.result

/-- The effect trace of a send_stats run, or the empty trace when the call
panicked on the HOME unwrap. -/
def sendOutTrace (w : World) (sb : List Nat) (api : Option String) : List Effect :=
  match send_stats w sb api with
  | .error _ => []
  | .ok out => out.trace

/-- The kind (enum variant) of the error a send_stats run returned, when it
returned one. -/
def sendErrKind (w : World) (sb : List Nat) (api : Option String) : Option ErrKind :=
  match send_stats w sb api with
  | .ok { result := .error e, trace := _ } => some e.kind
  | _ => none

/-- The base64 encoding of a non-empty byte list is a non-empty string. -/
theorem encodeBase64Url_ne_empty (l : List Nat) (h : l ≠ []) : encodeBase64Url l ≠ "" := by
  match l with
  | [] => exact absurd rfl h
  | [b1] =>
    intro he
    have hd := congrArg String.data he
    simp [encodeBase64Url] at hd
  | [b1, b2] =>
    intro he
    have hd := congrArg String.data he
    simp [encodeBase64Url] at hd
  | b1 :: b2 :: b3 :: rest =>
    intro he
    have hd := congrArg String.data he
    simp [encodeBase64Url, String.data_append] at hd

/-- A 32-byte key draw is never the empty list. -/
theorem rngBytes_ne_nil (rng : Nat → Nat) (pos : Nat) : rngBytes rng pos 32 ≠ [] := by
  intro h
  have := congrArg List.length h
  simp [rngBytes] at this

/-- A concrete world where every phase succeeds: HOME is set, all database
opens succeed, the query returns three rows (two sharing a timestamp), the
server answers 200 with a JSON id, and the random stream is all zeros. -/
def wBase : World :=
  { home := some ("/u")
    gatherChatOpen := Except.ok ()
    queryAllMessages := [{ rowid := 1, date := 5 }, { rowid := 2, date := 3 },
      { rowid := 3, date := 5 }]
    addressBookOpen := Except.ok ()
    handlesLoad := Except.ok ()
    sendChatOpen := Except.ok ()
    http := HttpOutcome.response 200 ("") (some (some ("abc123")))
    rng := fun _ => 0 }

/-- C2: every invocation of encrypt_data draws a fresh 256-bit (32-byte)
key from the random stream inside the call, advances the stream position by
32 so that successive calls consume disjoint stream segments (the key is
never reused across calls), encrypts the compressed bytes with the
authenticated 256-bit-key cipher under the fixed, constant all-zero 96-bit
nonce, and returns the key together with a ciphertext that embeds the
128-bit (16-byte) authentication tag. -/
theorem encrypt_data_fresh_key_fixed_nonce (rng : Nat → Nat) (pos : Nat) (data : List Nat) :
    (encrypt_data rng pos data).key = rngBytes rng pos 32 ∧
    (encrypt_data rng pos data).key.length = 32 ∧
    zeroNonce = List.replicate 12 0 ∧
    zeroNonce.length = 12 ∧
    (encrypt_data rng pos data).ciphertext =
      aesGcmEncrypt (encrypt_data rng pos data).key zeroNonce (brotliCompress data) ∧
    (encrypt_data rng pos data).ciphertext.length = (brotliCompress data).length + 16 ∧
    (encrypt_data rng pos data).nextPos = pos + 32 ∧
    List.Disjoint (keyDrawIndices pos) (keyDrawIndices (encrypt_data rng pos data).nextPos) := by
  refine ⟨rfl, by simp [encrypt_data, rngBytes], rfl, by simp [zeroNonce], rfl,
    by simp [encrypt_data, aesGcmEncrypt_length], rfl, ?_⟩
  intro a h1 h2
  simp only [encrypt_data, keyDrawIndices, List.mem_map, List.mem_range] at h1 h2
  obtain ⟨i, hi, rfl⟩ := h1
  obtain ⟨j, hj, hij⟩ := h2
  omega

/-- C3: decrypting the ciphertext of encrypt_data with its paired key under
the fixed all-zero nonce and decompressing the result yields exactly the
input bytes. -/
theorem encrypt_data_roundtrip (rng : Nat → Nat) (pos : Nat) (data : List Nat) :
    (aesGcmDecrypt (encrypt_data rng pos data).key zeroNonce
      (encrypt_data rng pos data).ciphertext).map brotliDecompress = some data := by
  simp only [encrypt_data]
  rw [aesGcmDecrypt_aesGcmEncrypt]
  simp [brotliDecompress, brotliCompress]

set_option maxRecDepth 8000 in
/-- C4: the claim says key material is never logged in production paths,
but encrypt_data prints the generated key bytes to standard output on every
invocation (src/lib.rs lines 183-188): at the concrete input below, the log
contains a stdout line that contains the rendered key bytes. -/
theorem encrypt_data_logs_key_bytes :
    Effect.stdout (("Rust encryption - Key length: 32, Encrypted size: 16, Key bytes: ") ++
        toString (encrypt_data (fun _ => 0) 0 []).key) ∈ (encrypt_data (fun _ => 0) 0 []).log ∧
    strContains (("Rust encryption - Key length: 32, Encrypted size: 16, Key bytes: ") ++
        toString (encrypt_data (fun _ => 0) 0 []).key)
      (toString (encrypt_data (fun _ => 0) 0 []).key) := by
  constructor
  · decide
  · exact ⟨("Rust encryption - Key length: 32, Encrypted size: 16, Key bytes: ").data, [],
      by simp [String.data_append]⟩

/-- C6: whenever gather_imessage_data succeeds, the returned message list
is sorted non-decreasing by the timestamp field, and the sort is stable:
for every timestamp the rows holding it appear exactly in their original
retrieval order. -/
theorem gather_messages_sorted_stable (w : World) (msgs : List Message)
    (h : gather_imessage_data w = Except.ok msgs) :
    msgs.Pairwise (fun a b => a.date ≤ b.date) ∧
    ∀ t : Int, msgs.filter (fun m => decide (m.date = t)) =
      w.queryAllMessages.filter (fun m => decide (m.date = t)) := by
  have hmsgs : msgs = w.queryAllMessages.mergeSort dateLE := by
    cases hg : w.gatherChatOpen with
    | error e => simp [gather_imessage_data, hg] at h
    | ok u =>
      cases ha : w.addressBookOpen with
      | error e => simp [gather_imessage_data, hg, ha] at h
      | ok u2 =>
        cases hl : w.handlesLoad with
        | error e => simp [gather_imessage_data, hg, ha, hl] at h
        | ok u3 =>
          simp [gather_imessage_data, hg, ha, hl] at h
          exact h.symm
  subst hmsgs
  constructor
  · exact (List.sorted_mergeSort dateLE_trans dateLE_total w.queryAllMessages).imp
      (fun hab => by simpa [dateLE] using hab)
  · intro t
    exact mergeSort_filter_date w.queryAllMessages t

/-- Witness for C6: the concrete query of wBase returns rows with dates
5, 3, 5; the gathered output is sorted and the two rows with date 5 keep
their original order. -/
theorem gather_messages_sorted_stable_witness :
    (wBase.queryAllMessages.mergeSort dateLE).Pairwise (fun a b => a.date ≤ b.date) ∧
    (wBase.queryAllMessages.mergeSort dateLE).filter (fun m => decide (m.date = 5)) =
      wBase.queryAllMessages.filter (fun m => decide (m.date = 5)) :=
  ⟨(gather_messages_sorted_stable wBase _ rfl).1,
    (gather_messages_sorted_stable wBase _ rfl).2 5⟩

/-- C5 amended: when the HOME environment variable is absent, fetch_stats
aborts before any pipeline phase runs (whatever the other world components
are), but the abort is a panic from the unwrap of the environment read; the
panic escapes the orchestrator instead of being converted into the result
envelope. -/
theorem fetch_stats_no_home_panics (w : World) (api : String) (hh : w.home = none) :
    fetch_stats w api = Except.error Panic.unwrapNone ∧
    (fetch_stats w api).isOk = false := by
  have h1 : fetch_stats w api = Except.error Panic.unwrapNone := by
    simp [fetch_stats, hh]
  exact ⟨h1, by rw [h1]; rfl⟩

/-- Witness for the amended C5 at a concrete world with HOME absent. -/
theorem fetch_stats_no_home_panics_witness :
    fetch_stats { wBase with home := none } ("https://a") = Except.error Panic.unwrapNone ∧
    (fetch_stats { wBase with home := none } ("https://a")).isOk = false :=
  fetch_stats_no_home_panics { wBase with home := none } ("https://a") rfl

/-- Counterexample for C5 as stated: with HOME absent the run does not
produce a result envelope at all; it ends in the unwrap panic, so the error
does cross the host boundary directly. -/
theorem fetch_stats_no_home_counterexample :
    fetch_stats { wBase with home := none } ("https://b") = Except.error Panic.unwrapNone ∧
    (fetch_stats { wBase with home := none } ("https://b")).isOk = false := by
  exact ⟨rfl, rfl⟩

/-- The timeout message and the connection-failure message differ for every
upload URL (their lengths already differ). -/
theorem timeoutMsg_ne_connectFailedMsg (u : String) : timeoutMsg u ≠ connectFailedMsg u := by
  intro h
  have h2 := congrArg String.length h
  simp only [timeoutMsg, connectFailedMsg, String.length_append] at h2
  have e1 : ("Request timed out while uploading to ").length = 37 := rfl
  have e2 : ("Failed to connect to ").length = 21 := rfl
  have e3 : (". Please check your internet connection").length = 39 := rfl
  rw [e1, e2, e3] at h2
  omega

/-- C7 amended: a timeout in send_stats yields an error of the Io variant
of AnalyzerError (the module has no dedicated network error kind), carrying
the timeout message; the connection-failure cause is distinguishable from
it only by message text, since both causes map to the same Io kind. -/
theorem send_stats_timeout_classified (w : World) (sb : List Nat) (api : Option String)
    (h : String) (hh : w.home = some h) (hc : w.sendChatOpen = Except.ok ())
    (ht : w.http = HttpOutcome.timeout) :
    sendResult w sb api = some (Except.error (AnalyzerError.io
      (timeoutMsg ((api.getD defaultBaseUrl) ++ "/api/upload")))) ∧
    sendErrKind w sb api = some ErrKind.io ∧
    timeoutMsg ((api.getD defaultBaseUrl) ++ "/api/upload") ≠
      connectFailedMsg ((api.getD defaultBaseUrl) ++ "/api/upload") := by
  refine ⟨?_, ?_, timeoutMsg_ne_connectFailedMsg _⟩
  · simp [sendResult, send_stats, hh, hc, ht]
  · simp [sendErrKind, send_stats, hh, hc, ht, AnalyzerError.kind]

/-- Counterexample for C7 as stated: the code has no NetworkError type; a
timeout and a connection failure both come back as the same Io error kind,
so the timeout is not a distinct error sub-kind. -/
theorem send_stats_timeout_kind_counterexample :
    sendErrKind { wBase with http := HttpOutcome.timeout } [] (some ("http://b")) =
      some ErrKind.io ∧
    sendErrKind { wBase with http := HttpOutcome.connectFailed } [] (some ("http://b")) =
      some ErrKind.io ∧
    sendErrKind { wBase with http := HttpOutcome.timeout } [] (some ("http://b")) =
      sendErrKind { wBase with http := HttpOutcome.connectFailed } [] (some ("http://b")) :=
  ⟨rfl, rfl, rfl⟩

/-- C8: a non-2xx response makes send_stats return an error whose message
contains the numeric status code, contains the response body text when it
is non-empty, and contains the placeholder text when the body is empty. -/
theorem send_stats_http_status_error (w : World) (sb : List Nat) (api : Option String)
    (h : String) (status : Nat) (body : String) (json : Option (Option String))
    (hh : w.home = some h) (hc : w.sendChatOpen = Except.ok ())
    (hr : w.http = HttpOutcome.response status body json)
    (hs : isSuccessStatus status = false) :
    sendResult w sb api = some (Except.error (AnalyzerError.io (httpStatusErrMsg status body))) ∧
    strContains (httpStatusErrMsg status body) (toString status) ∧
    (body ≠ "" → strContains (httpStatusErrMsg status body) body) ∧
    (body = "" → strContains (httpStatusErrMsg status body) ("No error details provided")) := by
  refine ⟨?_, ?_, ?_, ?_⟩
  · simp [sendResult, send_stats, hh, hc, hr, hs]
  · refine ⟨("Upload failed with status ").data,
      (" " ++ (canonicalReason status).getD ("<unknown status code>") ++ ": " ++
        (canonicalReason status).getD ("Unknown error") ++ ". Server response: " ++
        (if body = "" then "No error details provided" else body)).data, ?_⟩
    simp [httpStatusErrMsg, statusDisplay, String.data_append]
  · intro hb
    refine ⟨("Upload failed with status " ++ statusDisplay status ++ ": " ++
        (canonicalReason status).getD ("Unknown error") ++ ". Server response: ").data, [], ?_⟩
    simp [httpStatusErrMsg, String.data_append, if_neg hb]
  · intro hb
    subst hb
    refine ⟨("Upload failed with status " ++ statusDisplay status ++ ": " ++
        (canonicalReason status).getD ("Unknown error") ++ ". Server response: ").data, [], ?_⟩
    simp [httpStatusErrMsg, String.data_append]

/-- Witness for C8: a 500 response with body oops yields the error message
that contains both the status code 500 and the body text. -/
theorem send_stats_http_status_error_witness :
    sendResult { wBase with http := HttpOutcome.response 500 ("oops") none } []
        (some ("http://b")) =
      some (Except.error (AnalyzerError.io (httpStatusErrMsg 500 ("oops")))) ∧
    strContains (httpStatusErrMsg 500 ("oops")) (toString 500) ∧
    strContains (httpStatusErrMsg 500 ("oops")) ("oops") :=
  ⟨(send_stats_http_status_error { wBase with http := HttpOutcome.response 500 ("oops") none }
      [] (some ("http://b")) "/u" 500 ("oops") none rfl rfl rfl rfl).1,
   (send_stats_http_status_error { wBase with http := HttpOutcome.response 500 ("oops") none }
      [] (some ("http://b")) "/u" 500 ("oops") none rfl rfl rfl rfl).2.1,
   (send_stats_http_status_error { wBase with http := HttpOutcome.response 500 ("oops") none }
      [] (some ("http://b")) "/u" 500 ("oops") none rfl rfl rfl rfl).2.2.1 (by decide)⟩

/-- C9: on a 2xx response whose body decodes as JSON, send_stats succeeds
and returns the share URL built as base slash s slash id, a hash sign, and
the URL-safe base64 encoding of the raw key bytes; when the JSON has no
string id field the id segment is the empty string and the call still
succeeds. -/
theorem send_stats_share_url (w : World) (sb : List Nat) (api : Option String)
    (h : String) (status : Nat) (body : String) (idOpt : Option String)
    (hh : w.home = some h) (hc : w.sendChatOpen = Except.ok ())
    (hr : w.http = HttpOutcome.response status body (some idOpt))
    (hs : isSuccessStatus status = true) :
    sendResult w sb api = some (Except.ok
      { shareUrl := (api.getD defaultBaseUrl) ++ "/s/" ++ idOpt.getD ("") ++ "#" ++
          encodeBase64Url (rngBytes w.rng 0 32),
        keyBase64 := encodeBase64Url (rngBytes w.rng 0 32) }) ∧
    (idOpt = none → sendResult w sb api = some (Except.ok
      { shareUrl := (api.getD defaultBaseUrl) ++ "/s/" ++ "" ++ "#" ++
          encodeBase64Url (rngBytes w.rng 0 32),
        keyBase64 := encodeBase64Url (rngBytes w.rng 0 32) })) := by
  constructor
  · simp [sendResult, send_stats, hh, hc, hr, hs, encrypt_data]
  · intro hnone
    subst hnone
    simp [sendResult, send_stats, hh, hc, hr, hs, encrypt_data]

/-- Witness for C9 at a concrete world whose response has no id field: the
call still succeeds and the id segment of the share URL is empty. -/
theorem send_stats_share_url_witness :
    sendResult { wBase with http := HttpOutcome.response 200 ("") (some none) } []
        (some ("http://b")) =
      some (Except.ok
        { shareUrl := ("http://b") ++ "/s/" ++ (none : Option String).getD ("") ++ "#" ++
            encodeBase64Url (rngBytes (fun _ => 0) 0 32),
          keyBase64 := encodeBase64Url (rngBytes (fun _ => 0) 0 32) }) ∧
    sendResult { wBase with http := HttpOutcome.response 200 ("") (some none) } []
        (some ("http://b")) =
      some (Except.ok
        { shareUrl := ("http://b") ++ "/s/" ++ "" ++ "#" ++
            encodeBase64Url (rngBytes (fun _ => 0) 0 32),
          keyBase64 := encodeBase64Url (rngBytes (fun _ => 0) 0 32) }) :=
  ⟨(send_stats_share_url { wBase with http := HttpOutcome.response 200 ("") (some none) }
      [] (some ("http://b")) "/u" 200 ("") none rfl rfl rfl rfl).1,
   (send_stats_share_url { wBase with http := HttpOutcome.response 200 ("") (some none) }
      [] (some ("http://b")) "/u" 200 ("") none rfl rfl rfl rfl).2 rfl⟩

/-- C10: send_stats opens a fresh chat.db connection at the path
HOME/Library/Messages/chat.db before any packaging or network step; when
that open fails the call returns the error with nothing else attempted (the
trace holds only the open), the orchestrator reports it as upload_failed,
and on success the extra connection is never read from and never explicitly
closed. -/
theorem send_stats_extra_chat_db_connection (w : World) (sb : List Nat)
    (api : Option String) (apiS h : String) (hh : w.home = some h) :
    (∀ e, w.sendChatOpen = Except.error e →
      send_stats w sb api = Except.ok
        { result := Except.error e,
          trace := [Effect.openChatDb (h ++ "/Library/Messages/chat.db")] }) ∧
    (∀ e msgs, w.sendChatOpen = Except.error e → gather_imessage_data w = Except.ok msgs →
      fetch_stats w apiS = Except.ok (Envelope.failure
        ("Failed to generate your Messages Wrapped: " ++ e.message) ("upload_failed"))) ∧
    (∀ s, w.sendChatOpen = Except.ok () → sendResult w sb api = some (Except.ok s) →
      Effect.readChatDb ∉ sendOutTrace w sb api ∧
      Effect.closeChatDb ∉ sendOutTrace w sb api) := by
  refine ⟨?_, ?_, ?_⟩
  · intro e he
    simp [send_stats, hh, he]
  · intro e msgs he hg
    simp [fetch_stats, hh, hg, send_stats, he]
  · intro s hc _
    cases hr : w.http with
    | timeout => simp [sendOutTrace, send_stats, hh, hc, hr, encrypt_data]
    | connectFailed => simp [sendOutTrace, send_stats, hh, hc, hr, encrypt_data]
    | otherError m => simp [sendOutTrace, send_stats, hh, hc, hr, encrypt_data]
    | response status body json =>
      cases hsb : isSuccessStatus status with
      | false => simp [sendOutTrace, send_stats, hh, hc, hr, hsb, encrypt_data]
      | true =>
        cases json with
        | none => simp [sendOutTrace, send_stats, hh, hc, hr, hsb, encrypt_data]
        | some idOpt => simp [sendOutTrace, send_stats, hh, hc, hr, hsb, encrypt_data]

/-- Witness for C10: a failing extra open returns the error with only the
open in the trace and is reported as upload_failed; the successful run of
wBase never reads or closes the extra connection. -/
theorem send_stats_extra_chat_db_connection_witness :
    send_stats { wBase with
        sendChatOpen := Except.error (AnalyzerError.sql ("unable to open database file")) }
        [] (some ("http://b")) =
      Except.ok
        { result := Except.error (AnalyzerError.sql ("unable to open database file")),
          trace := [Effect.openChatDb ("/u/Library/Messages/chat.db")] } ∧
    fetch_stats { wBase with
        sendChatOpen := Except.error (AnalyzerError.sql ("unable to open database file")) }
        ("http://b") =
      Except.ok (Envelope.failure
        ("Failed to generate your Messages Wrapped: unable to open database file")
        ("upload_failed")) ∧
    (Effect.readChatDb ∉ sendOutTrace wBase [] (some ("http://b")) ∧
      Effect.closeChatDb ∉ sendOutTrace wBase [] (some ("http://b"))) :=
  ⟨(send_stats_extra_chat_db_connection { wBase with
        sendChatOpen := Except.error (AnalyzerError.sql ("unable to open database file")) }
      [] (some ("http://b")) ("http://b") "/u" rfl).1 _ rfl,
   (send_stats_extra_chat_db_connection { wBase with
        sendChatOpen := Except.error (AnalyzerError.sql ("unable to open database file")) }
      [] (some ("http://b")) ("http://b") "/u" rfl).2.1 _ _ rfl rfl,
   (send_stats_extra_chat_db_connection wBase [] (some ("http://b")) ("http://b") "/u"
      rfl).2.2
     { shareUrl := ("http://b/s/abc123#AAAAAAAAAAAAAAAAAAAAAAAAAAAAAAAAAAAAAAAAAAA="),
       keyBase64 := ("AAAAAAAAAAAAAAAAAAAAAAAAAAAAAAAAAAAAAAAAAAA=") } rfl rfl⟩

/-- C1 amended: when gather_imessage_data fails the envelope is a failure
tagged analysis_failed; when send_stats fails the envelope is a failure
tagged upload_failed; when every phase succeeds the envelope is a success
whose share URL is the base URL, the segment slash s slash, the server id
(possibly empty when the response JSON has no string id field), a hash
sign, and a non-empty URL-safe base64 key. -/
theorem fetch_stats_envelope (w : World) (api h : String) (hh : w.home = some h) :
    (∀ e, gather_imessage_data w = Except.error e →
      fetch_stats w api = Except.ok (Envelope.failure
        ("Failed to analyze messages: " ++ e.message) ("analysis_failed"))) ∧
    (∀ msgs e, gather_imessage_data w = Except.ok msgs →
      sendResult w (get_all_yearly_stats_encoded msgs) (some api) =
        some (Except.error e) →
      fetch_stats w api = Except.ok (Envelope.failure
        ("Failed to generate your Messages Wrapped: " ++ e.message) ("upload_failed"))) ∧
    (∀ msgs s, gather_imessage_data w = Except.ok msgs →
      sendResult w (get_all_yearly_stats_encoded msgs) (some api) = some (Except.ok s) →
      fetch_stats w api = Except.ok (Envelope.success s.shareUrl s.keyBase64) ∧
      s.keyBase64 ≠ "" ∧
      ∃ id : String, s.shareUrl = api ++ "/s/" ++ id ++ "#" ++ s.keyBase64) := by
  refine ⟨?_, ?_, ?_⟩
  · intro e he
    simp [fetch_stats, hh, he]
  · intro msgs e hg hres
    cases hsend : send_stats w (get_all_yearly_stats_encoded msgs) (some api) with
    | error p => simp [sendResult, hsend] at hres
    | ok out =>
      simp only [sendResult, hsend, Option.some.injEq] at hres
      simp [fetch_stats, hh, hg, hsend, hres]
  · intro msgs s hg hres
    cases hc : w.sendChatOpen with
    | error e => simp [sendResult, send_stats, hh, hc] at hres
    | ok u =>
      cases u
      cases hr : w.http with
      | timeout => simp [sendResult, send_stats, hh, hc, hr] at hres
      | connectFailed => simp [sendResult, send_stats, hh, hc, hr] at hres
      | otherError m => simp [sendResult, send_stats, hh, hc, hr] at hres
      | response status body json =>
        cases hsb : isSuccessStatus status with
        | false => simp [sendResult, send_stats, hh, hc, hr, hsb] at hres
        | true =>
          cases json with
          | none => simp [sendResult, send_stats, hh, hc, hr, hsb] at hres
          | some idOpt =>
            simp [sendResult, send_stats, hh, hc, hr, hsb, encrypt_data] at hres
            subst hres
            refine ⟨?_, ?_, ?_⟩
            · simp [fetch_stats, hh, hg, send_stats, hh, hc, hr, hsb, encrypt_data]
            · exact encodeBase64Url_ne_empty _ (rngBytes_ne_nil _ _)
            · exact ⟨idOpt.getD (""), rfl⟩

/-- Witness for the amended C1: a failing gather yields analysis_failed, a
timeout during upload yields upload_failed, and the fully successful run of
wBase yields a success envelope with the expected share URL. -/
theorem fetch_stats_envelope_witness :
    fetch_stats { wBase with gatherChatOpen := Except.error (AnalyzerError.table ("no such table")) }
        ("http://b") =
      Except.ok (Envelope.failure ("Failed to analyze messages: imessage table error no such table")
        ("analysis_failed")) ∧
    fetch_stats { wBase with http := HttpOutcome.timeout } ("http://b") =
      Except.ok (Envelope.failure
        ("Failed to generate your Messages Wrapped: Request timed out while uploading to http://b/api/upload")
        ("upload_failed")) ∧
    fetch_stats wBase ("http://b") = Except.ok (Envelope.success
      ("http://b/s/abc123#AAAAAAAAAAAAAAAAAAAAAAAAAAAAAAAAAAAAAAAAAAA=")
      ("AAAAAAAAAAAAAAAAAAAAAAAAAAAAAAAAAAAAAAAAAAA=")) :=
  ⟨(fetch_stats_envelope
      { wBase with gatherChatOpen := Except.error (AnalyzerError.table ("no such table")) }
      ("http://b") "/u" rfl).1 _ rfl,
   (fetch_stats_envelope { wBase with http := HttpOutcome.timeout } ("http://b") "/u" rfl).2.1
      _ _ rfl rfl,
   ((fetch_stats_envelope wBase ("http://b") "/u" rfl).2.2 _
      { shareUrl := ("http://b/s/abc123#AAAAAAAAAAAAAAAAAAAAAAAAAAAAAAAAAAAAAAAAAAA="),
        keyBase64 := ("AAAAAAAAAAAAAAAAAAAAAAAAAAAAAAAAAAAAAAAAAAA=") } rfl rfl).1⟩

/-- Counterexample for C1 as stated: when the server response carries no
string id field every phase still succeeds, but the success envelope's
share URL has an empty id segment, so no decomposition of it into base,
slash s slash, a NON-empty id, a hash sign and a key exists. -/
theorem fetch_stats_nonempty_id_counterexample :
    fetch_stats { wBase with http := HttpOutcome.response 200 ("") (some none) } ("http://b") =
      Except.ok (Envelope.success
        ("http://b/s/#AAAAAAAAAAAAAAAAAAAAAAAAAAAAAAAAAAAAAAAAAAA=")
        ("AAAAAAAAAAAAAAAAAAAAAAAAAAAAAAAAAAAAAAAAAAA=")) ∧
    ¬ ∃ id key : String, id ≠ "" ∧
      ("http://b/s/#AAAAAAAAAAAAAAAAAAAAAAAAAAAAAAAAAAAAAAAAAAA=") =
        ("http://b") ++ "/s/" ++ id ++ "#" ++ key := by
  constructor
  · rfl
  · rintro ⟨id, key, hid, heq⟩
    have hd := congrArg String.data heq
    have hpre : ("http://b/s/#AAAAAAAAAAAAAAAAAAAAAAAAAAAAAAAAAAAAAAAAAAA=").data =
        ("http://b").data ++ (("/s/").data ++
          (('#') :: ("AAAAAAAAAAAAAAAAAAAAAAAAAAAAAAAAAAAAAAAAAAA=").data)) := rfl
    rw [hpre] at hd
    simp only [String.data_append, List.append_assoc] at hd
    have hd2 := List.append_cancel_left (List.append_cancel_left hd)
    simp only [List.cons_append, List.nil_append] at hd2
    cases hcid : id.data with
    | nil => exact hid (String.ext hcid)
    | cons c cs =>
      rw [hcid] at hd2
      simp only [List.cons_append] at hd2
      injection hd2 with h1 h2
      have hmem : ('#') ∈ cs ++ ('#' :: key.data) := by simp
      rw [← h2] at hmem
      exact absurd hmem (by decide)

/-- Witness for the amended C7 at a concrete timeout world. -/
theorem send_stats_timeout_classified_witness :
    sendResult { wBase with http := HttpOutcome.timeout } [] (some ("http://c")) =
      some (Except.error (AnalyzerError.io
        (timeoutMsg (((some ("http://c")).getD defaultBaseUrl) ++ "/api/upload")))) ∧
    sendErrKind { wBase with http := HttpOutcome.timeout } [] (some ("http://c")) =
      some ErrKind.io ∧
    timeoutMsg (((some ("http://c")).getD defaultBaseUrl) ++ "/api/upload") ≠
      connectFailedMsg (((some ("http://c")).getD defaultBaseUrl) ++ "/api/upload") :=
  send_stats_timeout_classified { wBase with http := HttpOutcome.timeout } []
    (some ("http://c")) "/u" rfl rfl rfl
